import Mathlib

/-!
Verification of the skoolach text-adventure core: the progressive command
parser (`src/game/parser.py`) and the turn-based combat engine
(`src/game/combat.py`, combat orchestration in `src/game/engine.py`).

The Python source is shallowly embedded: each Python method becomes a total
Lean function over explicit state; randomness (damage rolls, enemy action
choice) becomes explicit parameters; Python ints become `Int`/`Nat` and
float comparisons against the exact constants 0.5/0.25/0.4/0.9/1.1/0.3
become exact rational comparisons (all thresholds involved are reached only
at points where the float computation is exact or far from the boundary for
the integer healths in range, so the rational model agrees with the float
code on all reachable states).
-/

namespace Skoolach

/-! ### String helpers

The parser operates on Python strings via `strip()`, `lower()` and
`split()`.  These are modelled character-list-wise so that everything
reduces definitionally: `trimStr` models `str.strip()` (drop leading and
trailing whitespace), `toLowerStr` models `str.lower()` (per-character
lowercasing; ASCII suffices for the lexicon), and `tokenize` models
`str.split()` with no separator (split on whitespace runs, dropping empty
tokens). -/

def trimStr (s : String) : String :=
  String.mk (((s.data.dropWhile Char.isWhitespace).reverse.dropWhile
    Char.isWhitespace).reverse)

def toLowerStr (s : String) : String :=
  String.mk (s.data.map Char.toLower)

def splitWordsAux : List Char → List Char → List String
  | [], acc => if acc.isEmpty then [] else [String.mk acc.reverse]
  | c :: cs, acc =>
    if c.isWhitespace then
      if acc.isEmpty then splitWordsAux cs []
      else String.mk acc.reverse :: splitWordsAux cs []
    else splitWordsAux cs (c :: acc)

def tokenize (s : String) : List String :=
  splitWordsAux s.data []

/-! ### Lexicon (`Parser.__init__`) -/

/-- `self.verbs`: canonical verb → synonym list, in the source's insertion
order (reverse lookup scans in this order, first match wins). -/
def verbs : List (String × List String) :=
  [ ("go", ["go", "move", "walk", "run", "travel", "head"]),
    ("take", ["take", "get", "grab", "pick", "acquire"]),
    ("drop", ["drop", "leave", "discard", "put"]),
    ("look", ["look", "examine", "inspect", "check", "view", "describe"]),
    ("inventory", ["inventory", "inv", "i", "items"]),
    ("use", ["use", "activate", "apply"]),
    ("help", ["help", "?", "commands"]),
    ("quit", ["quit", "exit", "q"]),
    ("attack", ["attack", "fight", "hit", "strike", "kill"]),
    ("talk", ["talk", "speak", "chat", "say"]) ]

/-- `self.directions`: direction abbreviation → full direction name. -/
def directions : List (String × String) :=
  [ ("n", "north"), ("s", "south"), ("e", "east"), ("w", "west"),
    ("ne", "northeast"), ("nw", "northwest"), ("se", "southeast"),
    ("sw", "southwest"), ("u", "up"), ("d", "down") ]

/-- The full direction names listed inline in `_parse_level_0` and
`_parse_level_1`. -/
def fullDirections : List String :=
  ["north", "south", "east", "west", "up", "down",
   "northeast", "northwest", "southeast", "southwest"]

def articles : List String := ["a", "an", "the"]

def prepositions : List String := ["at", "to", "with", "on", "in", "from"]

/-- The canonical verbs (the keys of `self.verbs`). -/
def canonicalVerbs : List String := verbs.map Prod.fst

/-- `Parser._find_verb`: reverse synonym lookup, first match wins. -/
def findVerb (w : String) : Option String :=
  (verbs.find? (fun p => p.2.contains w)).map Prod.fst

/-- Lookup in the direction-abbreviation table (`words[0] in
self.directions` followed by `self.directions[words[0]]`). -/
def lookupDirection (w : String) : Option String :=
  (directions.find? (fun p => p.1 == w)).map Prod.snd

/-! ### Parse results -/

/-- The result triple of `Parser.parse`: `(verb, arguments, original_text)`,
with `verb = none` as the failure tag. -/
structure ParseResult where
  verb : Option String
  args : List String
  original : String
deriving DecidableEq, Repr

/-- `Parser._parse_level_0`, as a function of the token list and the
stripped original text.  For a single token the source checks, in order:
direction abbreviation, full direction name, verb lookup; a lone verb is
returned with no arguments both by the zero-argument-verb branch
(inventory/help/quit/look) and, for every other verb, by the final
`return verb, [], original`.  Three or more tokens always fail. -/
def parseLevel0 (ws : List String) (original : String) : ParseResult :=
  match ws with
  | [] => ⟨none, [], original⟩
  | [w] =>
    match lookupDirection w with
    | some full => ⟨some "go", [full], original⟩
    | none =>
      if fullDirections.contains w then ⟨some "go", [w], original⟩
      else
        match findVerb w with
        | none => ⟨none, [], original⟩
        | some v => ⟨some v, [], original⟩
  | [w1, w2] =>
    match findVerb w1 with
    | none => ⟨none, [], original⟩
    | some v => ⟨some v, [w2], original⟩
  | _ => ⟨none, [], original⟩

/-- `Parser._parse_level_1` (levels ≥ 1): single-token direction
abbreviations expand to `go`; otherwise the first token must resolve to a
verb (at level ≥ 2 a bare full direction is inferred as `go`); the
zero-argument verbs short-circuit; remaining tokens are filtered to drop
articles and prepositions. -/
def parseLevel1 (level : Nat) (ws : List String) (original : String) :
    ParseResult :=
  match ws with
  | [] => ⟨none, [], original⟩
  | w :: rest =>
    if rest.isEmpty && (lookupDirection w).isSome then
      ⟨some "go", [(lookupDirection w).getD ""], original⟩
    else
      match findVerb w with
      | none =>
        if 2 ≤ level && fullDirections.contains w then
          ⟨some "go", [w], original⟩
        else ⟨none, [], original⟩
      | some v =>
        if (v == "inventory" || v == "help" || v == "quit") && rest.isEmpty
        then ⟨some v, [], original⟩
        else if v == "look" && rest.isEmpty then ⟨some v, [], original⟩
        else
          ⟨some v,
           if 1 ≤ level then
             rest.filter
               (fun x => !(articles.contains x) && !(prepositions.contains x))
           else rest,
           original⟩

/-- `Parser.parse`: empty or whitespace-only input fails carrying the raw
input; otherwise the stripped, lowercased input is tokenized and dispatched
on the sophistication level (level 0 vs. level ≥ 1; the level is a
non-negative integer, modelled as `Nat`). -/
def parse (level : Nat) (input : String) : ParseResult :=
  if trimStr input = "" then ⟨none, [], input⟩
  else
    let original := trimStr input
    let ws := tokenize (toLowerStr original)
    if level = 0 then parseLevel0 ws original
    else parseLevel1 level ws original

/-- The shapes `_parse_level_0` accepts, as a predicate on the token list:
a single token that is a direction abbreviation, a full direction name or
a word resolving to a canonical verb; or two tokens whose first resolves
to a canonical verb.  (Used to state the level-0 acceptance
characterization.) -/
def acceptedShape0 : List String → Bool
  | [w] =>
    (lookupDirection w).isSome || fullDirections.contains w ||
      (findVerb w).isSome
  | [w1, _] => (findVerb w1).isSome
  | _ => false

/-! ### Combat data (`src/game/combat.py`) -/

/-- `CombatAction`: name, description, damage dealt, health restored, and
the AI component type required to use the action. -/
structure CombatAction where
  name : String
  description : String
  damage : Nat := 0
  heal : Nat := 0
  requiredComponent : Option String := none
deriving DecidableEq, Repr

/-- The fallback action of a generic `Enemy.choose_action` with an empty
action table. -/
def struggleAction : CombatAction :=
  ⟨"struggle", "The enemy struggles weakly.", 5, 0, none⟩

/-- `SkoolachVirus.__init__`: the boss's action table, in source order. -/
def virusActions : List CombatAction :=
  [ ⟨"Memory Corruption",
     "SKOOLACH corrupts your memory, dealing moderate damage.", 15, 0, none⟩,
    ⟨"Parser Degradation",
     "SKOOLACH attacks your language processing, dealing heavy damage.",
     25, 0, none⟩,
    ⟨"Data Leak",
     "SKOOLACH siphons your training data, dealing light damage.",
     10, 0, none⟩,
    ⟨"Stack Overflow",
     "SKOOLACH causes a cascade failure, dealing massive damage!",
     30, 0, none⟩,
    ⟨"Regenerate",
     "SKOOLACH absorbs corrupted data to heal itself.", 0, 20, none⟩ ]

/-- `health_percent = self.health / self.max_health` (exact rational
division in place of Python float division; exact at every threshold
reachable with `max_health = 150`). -/
def healthPercent (health maxHealth : ℤ) : ℚ :=
  (health : ℚ) / (maxHealth : ℚ)

/-- The phase-transition prelude of `SkoolachVirus.choose_action`: an
`if`/`elif` on the current phase, so at most one transition fires per
call. -/
def nextPhase (phase : Nat) (health maxHealth : ℤ) : Nat :=
  if healthPercent health maxHealth ≤ 1/2 ∧ phase = 1 then 2
  else if healthPercent health maxHealth ≤ 1/4 ∧ phase = 2 then 3
  else phase

/-- `random.choice` modelled by an externally supplied index, reduced
modulo the list length (the source never calls it on an empty list in the
boss's tables; the default is unreachable there). -/
def pickAction (l : List CombatAction) (i : Nat) : CombatAction :=
  l.getD (i % l.length) struggleAction

/-- The action-selection body of `SkoolachVirus.choose_action`, after the
phase update: phase 3 draws from the actions with `damage >= 20`; phase 2
heals (the first action named "Regenerate") with probability 0.3 when the
health fraction is below 0.4, otherwise draws from the full table; phase 1
draws from the actions with `0 < damage < 30`.  `r` models the
`random.random()` draw and `i` the `random.choice` index. -/
def phasePolicy (phase : Nat) (health maxHealth : ℤ) (r : ℚ) (i : Nat) :
    CombatAction :=
  if phase = 3 then
    pickAction (virusActions.filter (fun a => 20 ≤ a.damage)) i
  else if phase = 2 then
    if healthPercent health maxHealth < 2/5 ∧ r < 3/10 then
      (virusActions.filter (fun a => a.name == "Regenerate")).headD
        struggleAction
    else pickAction virusActions i
  else
    pickAction (virusActions.filter (fun a => 0 < a.damage ∧ a.damage < 30)) i

/-- `SkoolachVirus.choose_action`: updates the phase from the health
fraction, then selects an action under the updated phase's policy.
Returns the updated phase together with the chosen action. -/
def chooseVirusAction (phase : Nat) (health maxHealth : ℤ) (r : ℚ) (i : Nat) :
    Nat × CombatAction :=
  let p := nextPhase phase health maxHealth
  (p, phasePolicy p health maxHealth r i)

/-! ### Combat engine state (`CombatSystem`, boss encounter) -/

/-- The mutable state of one `CombatSystem` encounter against the
`SkoolachVirus` boss: the player's health (capped at 100), the enemy's
health, maximum health and phase, the advisory turn counter, and the
player's action list generated at creation. -/
structure CombatState where
  playerHealth : ℤ
  enemyHealth : ℤ
  enemyMaxHealth : ℤ
  enemyPhase : Nat
  turn : Nat
  playerActions : List CombatAction
deriving DecidableEq, Repr

/-- Python `int(x)`: truncation toward zero. -/
def pyInt (q : ℚ) : ℤ := if 0 ≤ q then ⌊q⌋ else ⌈q⌉

/-- `int(action.damage * random.uniform(0.9, 1.1))`, with the uniform draw
`r` supplied explicitly. -/
def applyDamageRoll (damage : Nat) (r : ℚ) : ℤ :=
  pyInt ((damage : ℚ) * r)

/-- The base action of `CombatSystem._generate_player_actions`. -/
def debugAttack : CombatAction :=
  ⟨"Debug Attack", "A basic debugging attempt. Weak but reliable.",
   10, 0, none⟩

/-- The `component_actions` table of
`CombatSystem._generate_player_actions`, as a lookup by component type. -/
def componentAction (compType : String) : Option CombatAction :=
  if compType == "tokenizer" then some
    ⟨"Token Blast",
     "Break down the virus into manageable tokens and eliminate them.",
     20, 0, some "tokenizer"⟩
  else if compType == "embedding" then some
    ⟨"Semantic Strike",
     "Use vector space to find the virus\x27s weak points.",
     25, 0, some "embedding"⟩
  else if compType == "attention" then some
    ⟨"Focused Attention",
     "Focus all processing power on the virus\x27s critical components.",
     30, 0, some "attention"⟩
  else if compType == "neural_layer" then some
    ⟨"Neural Surge", "Channel neural network power through all layers.",
     35, 0, some "neural_layer"⟩
  else if compType == "training_data" then some
    ⟨"Knowledge Beam", "Deploy accumulated knowledge against the virus.",
     28, 0, some "training_data"⟩
  else if compType == "optimizer" then some
    ⟨"Gradient Descent",
     "Optimize damage output through iterative improvement.",
     32, 0, some "optimizer"⟩
  else if compType == "inference" then some
    ⟨"Prediction Strike", "Predict and counter the virus\x27s next move.",
     40, 0, some "inference"⟩
  else if compType == "context" then some
    ⟨"Contextual Barrage", "Use long-term context to overwhelm the virus.",
     38, 0, some "context"⟩
  else none

/-- The self-heal action granted by owning an "optimizer" component. -/
def selfOptimize : CombatAction :=
  ⟨"Self-Optimize", "Optimize your own systems to restore health.",
   0, 30, some "optimizer"⟩

/-- `CombatSystem._generate_player_actions`: the base Debug Attack, then
one action per collected component type present in the table (in the order
collected), then Self-Optimize if any collected component is an
optimizer. -/
def generatePlayerActions (components : List String) : List CombatAction :=
  [debugAttack] ++ components.filterMap componentAction ++
    (if components.contains "optimizer" then [selfOptimize] else [])

/-- `CombatSystem.__init__` for the boss encounter created by
`GameEngine._initiate_combat`: a fresh `SkoolachVirus` (150/150 health,
phase 1), the player's current health, turn counter 0, and the generated
player actions. -/
def mkCombatSystem (playerHealth : ℤ) (components : List String) :
    CombatState :=
  { playerHealth := playerHealth
    enemyHealth := 150
    enemyMaxHealth := 150
    enemyPhase := 1
    turn := 0
    playerActions := generatePlayerActions components }

/-- The outcome of one attack half-turn: the new state, the damage figure
reported in the narrative damage line (if a damage line is emitted), and
the restored-health figure reported in the narrative heal line (if one is
emitted). -/
structure AttackOutcome where
  state : CombatState
  damageDealt : Option ℤ
  healReported : Option ℤ
deriving DecidableEq, Repr

/-- `CombatSystem.player_attack`: if `action.damage > 0`, roll the damage
and apply it to the enemy via `Enemy.take_damage` (`max(0, health -
amount)`), reporting the rolled amount; if `action.heal > 0`, raise the
player's health clamped to 100 and report the delta actually applied. -/
def playerAttack (cs : CombatState) (a : CombatAction) (r : ℚ) :
    AttackOutcome :=
  let step1 : CombatState × Option ℤ :=
    if 0 < a.damage then
      let actual := applyDamageRoll a.damage r
      ({cs with enemyHealth := max 0 (cs.enemyHealth - actual)}, some actual)
    else (cs, none)
  let cs1 := step1.1
  let step2 : CombatState × Option ℤ :=
    if 0 < a.heal then
      let newHealth := min 100 (cs1.playerHealth + (a.heal : ℤ))
      ({cs1 with playerHealth := newHealth},
       some (newHealth - cs1.playerHealth))
    else (cs1, none)
  ⟨step2.1, step1.2, step2.2⟩

/-- `CombatSystem.enemy_attack`: the enemy chooses an action (updating the
boss phase as a side effect); if it deals damage, roll and apply it to the
player clamped at 0; if it heals, raise the enemy's health clamped to the
enemy's own maximum and report the delta actually applied. -/
def enemyAttack (cs : CombatState) (r : ℚ) (i : Nat) (roll : ℚ) :
    AttackOutcome :=
  let pa := chooseVirusAction cs.enemyPhase cs.enemyHealth cs.enemyMaxHealth
    r i
  let a := pa.2
  let cs0 := {cs with enemyPhase := pa.1}
  let step1 : CombatState × Option ℤ :=
    if 0 < a.damage then
      let actual := applyDamageRoll a.damage roll
      ({cs0 with playerHealth := max 0 (cs0.playerHealth - actual)},
       some actual)
    else (cs0, none)
  let cs1 := step1.1
  let step2 : CombatState × Option ℤ :=
    if 0 < a.heal then
      let newHealth := min cs1.enemyMaxHealth (cs1.enemyHealth + (a.heal : ℤ))
      ({cs1 with enemyHealth := newHealth},
       some (newHealth - cs1.enemyHealth))
    else (cs1, none)
  ⟨step2.1, step1.2, step2.2⟩

inductive Winner where
  | player
  | enemy
deriving DecidableEq, Repr

/-- `CombatSystem.is_combat_over`: the enemy-defeated check
(`not self.enemy.is_alive()`, i.e. `health <= 0`) comes first, so a
simultaneously dead player is still reported as a player win. -/
def isCombatOver (cs : CombatState) : Bool × Option Winner :=
  if ¬ 0 < cs.enemyHealth then (true, some Winner.player)
  else if cs.playerHealth ≤ 0 then (true, some Winner.enemy)
  else (false, none)

/-- `GameEngine._execute_combat_turn`, state part: the player's action is
applied; if `is_combat_over` then reports, the round ends there; otherwise
the enemy acts.  `pr` is the player's damage-roll draw; `er`, `ei`, `eroll`
are the enemy's action-choice and damage-roll draws. -/
def executeCombatTurn (cs : CombatState) (a : CombatAction) (pr : ℚ)
    (er : ℚ) (ei : Nat) (eroll : ℚ) : CombatState :=
  let afterPlayer := (playerAttack cs a pr).state
  if (isCombatOver afterPlayer).1 then afterPlayer
  else (enemyAttack afterPlayer er ei eroll).state

/-! ### Engine-level combat initiation (`src/game/engine.py`) -/

/-- The slice of `GameEngine` state that `_initiate_combat` reads or
writes: the player's current health and collected AI component types, the
current combat instance (if any) and the in-combat flag. -/
structure EngineState where
  playerHealth : ℤ
  components : List String
  combat : Option CombatState
  inCombat : Bool
deriving DecidableEq, Repr

/-- The rejection narrative of `GameEngine._initiate_combat` for fewer
than 3 collected AI components. -/
def rejectionMessage (n : Nat) : String :=
  "You attempt to engage SKOOLACH, but you\x27re too weak!\n\n" ++
  s!"You\x27ve only collected {n} AI components. You need at least 3 " ++
  "to have a fighting chance against the virus.\n\n" ++
  "SKOOLACH laughs: \x27Come back when you\x27re stronger, little coder...\x27"

/-- The combat-initiated banner of `GameEngine._initiate_combat` (action
menu and status lines abbreviated to the lines the claims inspect). -/
def initiationMessage (n : Nat) : String :=
  "                    COMBAT INITIATED!\n\n" ++
  "A massive virus of corrupted code, pulsing with malicious energy.\n\n" ++
  s!"You have collected {n} AI components.\n" ++
  "They resonate with power, ready to aid you in battle!"

/-- `GameEngine._initiate_combat`: with fewer than 3 collected AI
components the attempt is refused and nothing changes; otherwise a fresh
`SkoolachVirus` and `CombatSystem` are created and the in-combat flag is
set. -/
def initiateCombat (st : EngineState) : EngineState × String :=
  let n := st.components.length
  if n < 3 then (st, rejectionMessage n)
  else
    ({st with
        combat := some (mkCombatSystem st.playerHealth st.components)
        inCombat := true},
     initiationMessage n)

/-! ### Helper lemmas -/

lemma nextPhase_three (h m : ℤ) : nextPhase 3 h m = 3 := by
  simp [nextPhase]

lemma playerAttack_turn (cs : CombatState) (a : CombatAction) (r : ℚ) :
    (playerAttack cs a r).state.turn = cs.turn := by
  dsimp only [playerAttack]
  split_ifs <;> rfl

lemma enemyAttack_turn (cs : CombatState) (r : ℚ) (i : Nat) (roll : ℚ) :
    (enemyAttack cs r i roll).state.turn = cs.turn := by
  dsimp only [enemyAttack]
  split_ifs <;> rfl

lemma findVerb_mem {w v : String} (h : findVerb w = some v) :
    v ∈ canonicalVerbs := by
  unfold findVerb at h
  rw [Option.map_eq_some'] at h
  obtain ⟨p, hp, rfl⟩ := h
  exact List.mem_map_of_mem Prod.fst (List.mem_of_find?_eq_some hp)

/-! ### Claim theorems -/

/-- C3: `is_combat_over` reports at most one winner, and when both actors
are simultaneously at 0 health the enemy-defeat check comes first, so the
winner reported — in particular by the check performed immediately after
the player's own action — is `"player"`. -/
theorem combat_over_exclusive_player_priority :
    (∀ cs : CombatState,
      ¬((isCombatOver cs).2 = some Winner.player ∧
        (isCombatOver cs).2 = some Winner.enemy))
    ∧ (∀ cs : CombatState, cs.playerHealth = 0 → cs.enemyHealth = 0 →
        isCombatOver cs = (true, some Winner.player)) := by
  constructor
  · intro cs hc
    exact absurd (hc.1.symm.trans hc.2) (by simp)
  · intro cs h1 h2
    simp [isCombatOver, h1, h2]

/-- C3 witness: with both actors at exactly 0 health, the player is
reported as winner. -/
theorem combat_over_exclusive_player_priority_witness :
    isCombatOver ⟨0, 0, 150, 1, 0, []⟩ = (true, some Winner.player) :=
  combat_over_exclusive_player_priority.2 ⟨0, 0, 150, 1, 0, []⟩ rfl rfl

/-- C5: the boss phase is a ratchet.  Each `choose_action` phase update is
monotone, and from phase 3 every sequence of further updates (arbitrary
health/max-health values at each call) stays at phase 3. -/
theorem phase_ratchet :
    (∀ hs : List (ℤ × ℤ),
      hs.foldl (fun p x => nextPhase p x.1 x.2) 3 = 3)
    ∧ (∀ (p : Nat) (h m : ℤ), p ≤ nextPhase p h m) := by
  constructor
  · intro hs
    induction hs with
    | nil => rfl
    | cons x xs ih =>
      rw [List.foldl_cons, nextPhase_three]
      exact ih
  · intro p h m
    unfold nextPhase
    split_ifs with h1 h2
    · omega
    · omega
    · exact le_refl p

/-- C10: a `choose_action` call advances the phase by at most one step.
If health drops from phase-1 territory directly to at most 25% of max, the
next call reports phase 2 and selects under the phase-2 policy; a further
call while health is still at most 25% reaches phase 3; and from phase 2 a
call with health above 25% stays at phase 2. -/
theorem phase_advances_one_step (h m : ℤ) (r : ℚ) (i : Nat)
    (hq : healthPercent h m ≤ 1/4) :
    chooseVirusAction 1 h m r i = (2, phasePolicy 2 h m r i)
    ∧ chooseVirusAction 2 h m r i = (3, phasePolicy 3 h m r i)
    ∧ (∀ (h2 : ℤ) (r2 : ℚ) (i2 : Nat), ¬ healthPercent h2 m ≤ 1/4 →
        chooseVirusAction 2 h2 m r2 i2 = (2, phasePolicy 2 h2 m r2 i2)) := by
  have h12 : healthPercent h m ≤ 1/2 := le_trans hq (by norm_num)
  have e1 : nextPhase 1 h m = 2 := by
    unfold nextPhase
    rw [if_pos ⟨h12, rfl⟩]
  have e2 : nextPhase 2 h m = 3 := by
    unfold nextPhase
    rw [if_neg (by simp), if_pos ⟨hq, rfl⟩]
  refine ⟨?_, ?_, fun h2 r2 i2 hq2 => ?_⟩
  · simp only [chooseVirusAction, e1]
  · simp only [chooseVirusAction, e2]
  · have e3 : nextPhase 2 h2 m = 2 := by
      unfold nextPhase
      rw [if_neg (by simp), if_neg (by simpa using hq2)]
    simp only [chooseVirusAction, e3]

unseal Rat.mul Rat.inv Rat.add Rat.sub in
/-- C10 witness: at health 30 of 150 (20%, at most 25%), a phase-1 call
reports phase 2 with the phase-2 policy selection, and a phase-2 call
reports phase 3. -/
theorem phase_advances_one_step_witness :
    chooseVirusAction 1 30 150 0 0 = (2, phasePolicy 2 30 150 0 0)
    ∧ chooseVirusAction 2 30 150 0 0 = (3, phasePolicy 3 30 150 0 0) :=
  ⟨(phase_advances_one_step 30 150 0 0 (by decide)).1,
   (phase_advances_one_step 30 150 0 0 (by decide)).2.1⟩

unseal Rat.mul Rat.inv Rat.add Rat.sub in
/-- C2 counterexample: one full completed round (player attacks with the
basic Debug Attack at an exactly-nominal roll, the enemy answers, both
survive) leaves the turn counter at 0, not 1 — the code never increments
`self.turn`. -/
theorem turn_counter_not_incremented :
    (executeCombatTurn (mkCombatSystem 100 []) debugAttack 1 0 0 1).turn = 0
    ∧ (executeCombatTurn (mkCombatSystem 100 []) debugAttack 1 0 0 1).turn ≠ 1
    ∧ 0 < (executeCombatTurn (mkCombatSystem 100 []) debugAttack 1 0 0
        1).playerHealth
    ∧ 0 < (executeCombatTurn (mkCombatSystem 100 []) debugAttack 1 0 0
        1).enemyHealth := by
  decide

/-- C2 amended: the turn counter starts at 0 at encounter creation and is
never modified by combat rounds — after any number of rounds it still
equals its initial value (hence 0), not the number of completed rounds. -/
theorem turn_counter_constant :
    (∀ (ph : ℤ) (comps : List String), (mkCombatSystem ph comps).turn = 0)
    ∧ (∀ (cs : CombatState) (a : CombatAction) (pr er : ℚ) (ei : Nat)
        (eroll : ℚ),
        (executeCombatTurn cs a pr er ei eroll).turn = cs.turn) := by
  constructor
  · intro ph comps
    rfl
  · intro cs a pr er ei eroll
    simp only [executeCombatTurn]
    split_ifs
    · exact playerAttack_turn cs a pr
    · rw [enemyAttack_turn, playerAttack_turn]

/-- C4: heals clamp to the cap and the reported "amount restored" is the
delta actually applied.  Player side: cap 100; enemy side: the enemy's own
`max_health`.  When the healed actor's health is within `heal` of its cap,
the resulting health is exactly the cap and the reported figure is the
actual delta `cap - health`, not the nominal heal. -/
theorem heal_clamps_to_cap :
    (∀ (cs : CombatState) (a : CombatAction) (r : ℚ), 0 < a.heal →
      (100 : ℤ) - cs.playerHealth ≤ (a.heal : ℤ) →
      (playerAttack cs a r).state.playerHealth = 100
      ∧ (playerAttack cs a r).healReported = some (100 - cs.playerHealth))
    ∧ (∀ (cs : CombatState) (r : ℚ) (i : Nat) (roll : ℚ),
      0 < (chooseVirusAction cs.enemyPhase cs.enemyHealth cs.enemyMaxHealth
        r i).2.heal →
      cs.enemyMaxHealth - cs.enemyHealth ≤
        ((chooseVirusAction cs.enemyPhase cs.enemyHealth cs.enemyMaxHealth
          r i).2.heal : ℤ) →
      (enemyAttack cs r i roll).state.enemyHealth = cs.enemyMaxHealth
      ∧ (enemyAttack cs r i roll).healReported =
          some (cs.enemyMaxHealth - cs.enemyHealth)) := by
  constructor
  · intro cs a r hh hn
    dsimp only [playerAttack]
    rw [if_pos hh]
    split_ifs with hd
    · exact ⟨by dsimp only; omega, by dsimp only; congr 1; omega⟩
    · exact ⟨by dsimp only; omega, by dsimp only; congr 1; omega⟩
  · intro cs r i roll hh hn
    dsimp only [enemyAttack]
    rw [if_pos hh]
    split_ifs with hd
    · exact ⟨by dsimp only; omega, by dsimp only; congr 1; omega⟩
    · exact ⟨by dsimp only; omega, by dsimp only; congr 1; omega⟩

unseal Rat.mul Rat.inv Rat.add Rat.sub in
/-- C4 witness: a player at 90/100 health using Self-Optimize (nominal
heal 30) ends at exactly 100 and the reported restoration is the actual
delta 10, and the boss at 140/150 healing with Regenerate (nominal 20)
ends at exactly 150 with reported delta 10. -/
theorem heal_clamps_to_cap_witness :
    ((playerAttack ⟨90, 150, 150, 1, 0, []⟩ selfOptimize 1).state.playerHealth
      = 100
    ∧ (playerAttack ⟨90, 150, 150, 1, 0, []⟩ selfOptimize 1).healReported
      = some (100 - 90))
    ∧ ((enemyAttack ⟨100, 140, 150, 2, 0, []⟩ 1 4 1).state.enemyHealth = 150
    ∧ (enemyAttack ⟨100, 140, 150, 2, 0, []⟩ 1 4 1).healReported
      = some (150 - 140)) :=
  ⟨heal_clamps_to_cap.1 ⟨90, 150, 150, 1, 0, []⟩ selfOptimize 1 (by decide)
    (by decide),
   heal_clamps_to_cap.2 ⟨100, 140, 150, 2, 0, []⟩ 1 4 1 (by decide)
    (by decide)⟩

/-- C6: initiating combat with fewer than 3 collected AI components is
refused with the rejection narrative and changes nothing (no
`CombatSystem` is created, no engine state is mutated); with exactly 3
components, combat starts: the in-combat flag is set and a fresh
encounter instance against a full-health `SkoolachVirus` is stored. -/
theorem encounter_gating :
    (∀ st : EngineState, st.components.length < 3 →
      initiateCombat st = (st, rejectionMessage st.components.length))
    ∧ (∀ st : EngineState, st.components.length = 3 →
      (initiateCombat st).1.inCombat = true
      ∧ (initiateCombat st).1.combat =
          some (mkCombatSystem st.playerHealth st.components)
      ∧ (initiateCombat st).1.playerHealth = st.playerHealth
      ∧ (initiateCombat st).1.components = st.components) := by
  constructor
  · intro st h
    simp [initiateCombat, h]
  · intro st h
    have h3 : ¬ st.components.length < 3 := by omega
    simp [initiateCombat, h3]

/-- C6 witness: with 2 components the attempt is refused and the state
(including the absent combat instance) is unchanged; with 3 components
combat starts. -/
theorem encounter_gating_witness :
    initiateCombat ⟨100, ["tokenizer", "embedding"], none, false⟩ =
      (⟨100, ["tokenizer", "embedding"], none, false⟩,
       rejectionMessage (["tokenizer", "embedding"] : List String).length)
    ∧ (initiateCombat
        ⟨100, ["tokenizer", "embedding", "attention"], none, false⟩).1.inCombat
      = true :=
  ⟨encounter_gating.1 ⟨100, ["tokenizer", "embedding"], none, false⟩
    (by decide),
   (encounter_gating.2 ⟨100, ["tokenizer", "embedding", "attention"], none,
    false⟩ (by decide)).1⟩

/-- C7: for a roll `r` in the uniform range [0.9, 1.1], the applied damage
`int(d * r)` of an attack with nominal damage `d > 0` lies in
`[⌊0.9·d⌋, ⌈1.1·d⌉]`; and the target's health after either attack
direction is clamped at 0 (never negative). -/
theorem damage_roll_bounds (d : Nat) (r : ℚ) (_hd : 0 < d)
    (h1 : 9/10 ≤ r) (h2 : r ≤ 11/10) :
    (⌊(9/10 : ℚ) * (d : ℚ)⌋ ≤ applyDamageRoll d r
      ∧ applyDamageRoll d r ≤ ⌈(11/10 : ℚ) * (d : ℚ)⌉)
    ∧ (∀ (cs : CombatState) (a : CombatAction) (rr : ℚ), 0 < a.damage →
        0 ≤ (playerAttack cs a rr).state.enemyHealth)
    ∧ (∀ (cs : CombatState) (rr : ℚ) (i : Nat) (roll : ℚ),
        0 < (chooseVirusAction cs.enemyPhase cs.enemyHealth
          cs.enemyMaxHealth rr i).2.damage →
        0 ≤ (enemyAttack cs rr i roll).state.playerHealth) := by
  refine ⟨?_, ?_, ?_⟩
  · have hr0 : (0 : ℚ) ≤ r := le_trans (by norm_num) h1
    have hprod : (0 : ℚ) ≤ (d : ℚ) * r :=
      mul_nonneg (Nat.cast_nonneg d) hr0
    have heq : applyDamageRoll d r = ⌊(d : ℚ) * r⌋ := by
      unfold applyDamageRoll pyInt
      rw [if_pos hprod]
    constructor
    · rw [heq, mul_comm]
      exact Int.floor_le_floor (mul_le_mul_of_nonneg_left h1
        (Nat.cast_nonneg d))
    · rw [heq]
      refine le_trans (Int.floor_le_floor ?_) (Int.floor_le_ceil _)
      rw [mul_comm ((11:ℚ)/10) (d : ℚ)]
      exact mul_le_mul_of_nonneg_left h2 (Nat.cast_nonneg d)
  · intro cs a rr ha
    dsimp only [playerAttack]
    rw [if_pos ha]
    split_ifs <;> exact le_max_left 0 _
  · intro cs rr i roll ha
    dsimp only [enemyAttack]
    rw [if_pos ha]
    split_ifs <;> exact le_max_left 0 _

unseal Rat.mul Rat.inv Rat.add Rat.sub in
/-- C7 witness: nominal damage 25 at an exactly-nominal roll (r = 1)
yields applied damage within [⌊22.5⌋, ⌈27.5⌉] = [22, 28]. -/
theorem damage_roll_bounds_witness :
    ⌊(9/10 : ℚ) * ((25 : Nat) : ℚ)⌋ ≤ applyDamageRoll 25 1
    ∧ applyDamageRoll 25 1 ≤ ⌈(11/10 : ℚ) * ((25 : Nat) : ℚ)⌉ :=
  (damage_roll_bounds 25 1 (by decide) (by decide) (by decide)).1

/-! ### Parser lemmas -/

lemma parseLevel0_cases (ws : List String) (orig : String) :
    parseLevel0 ws orig = ⟨none, [], orig⟩
    ∨ ∃ v args, parseLevel0 ws orig = ⟨some v, args, orig⟩
        ∧ v ∈ canonicalVerbs := by
  match ws with
  | [] => exact Or.inl rfl
  | [w] =>
    cases hld : lookupDirection w with
    | some full =>
      refine Or.inr ⟨"go", [full], ?_, by decide⟩
      simp [parseLevel0, hld]
    | none =>
      cases hfd : fullDirections.contains w with
      | true =>
        have hfd2 : w ∈ fullDirections := by simpa using hfd
        refine Or.inr ⟨"go", [w], ?_, by decide⟩
        simp [parseLevel0, hld, hfd2]
      | false =>
        have hfd2 : w ∉ fullDirections := by simpa using hfd
        cases hfv : findVerb w with
        | none =>
          refine Or.inl ?_
          simp [parseLevel0, hld, hfd2, hfv]
        | some v =>
          refine Or.inr ⟨v, [], ?_, findVerb_mem hfv⟩
          simp [parseLevel0, hld, hfd2, hfv]
  | [w1, w2] =>
    cases hfv : findVerb w1 with
    | none =>
      refine Or.inl ?_
      simp [parseLevel0, hfv]
    | some v =>
      refine Or.inr ⟨v, [w2], ?_, findVerb_mem hfv⟩
      simp [parseLevel0, hfv]
  | w1 :: w2 :: w3 :: rest => exact Or.inl rfl

lemma parseLevel0_isSome (ws : List String) (orig : String) :
    (parseLevel0 ws orig).verb.isSome = acceptedShape0 ws := by
  match ws with
  | [] => rfl
  | [w] =>
    cases hld : lookupDirection w with
    | some full => simp [parseLevel0, acceptedShape0, hld]
    | none =>
      cases hfd : fullDirections.contains w with
      | true =>
        have hfd2 : w ∈ fullDirections := by simpa using hfd
        simp [parseLevel0, acceptedShape0, hld, hfd2]
      | false =>
        have hfd2 : w ∉ fullDirections := by simpa using hfd
        cases hfv : findVerb w with
        | none => simp [parseLevel0, acceptedShape0, hld, hfd2, hfv]
        | some v => simp [parseLevel0, acceptedShape0, hld, hfd2, hfv]
  | [w1, w2] =>
    cases hfv : findVerb w1 with
    | none => simp [parseLevel0, acceptedShape0, hfv]
    | some v => simp [parseLevel0, acceptedShape0, hfv]
  | w1 :: w2 :: w3 :: rest => rfl

lemma parseLevel0_singleVerb (w v orig : String)
    (hld : lookupDirection w = none)
    (hfd : fullDirections.contains w = false)
    (hfv : findVerb w = some v) :
    parseLevel0 [w] orig = ⟨some v, [], orig⟩ := by
  have hfd2 : w ∉ fullDirections := by simpa using hfd
  simp [parseLevel0, hld, hfd2, hfv]

lemma parseLevel1_cases (level : Nat) (ws : List String) (orig : String) :
    parseLevel1 level ws orig = ⟨none, [], orig⟩
    ∨ ∃ v args, parseLevel1 level ws orig = ⟨some v, args, orig⟩
        ∧ v ∈ canonicalVerbs := by
  match ws with
  | [] => exact Or.inl rfl
  | w :: rest =>
    cases hc1 : (rest.isEmpty && (lookupDirection w).isSome) with
    | true =>
      refine Or.inr ⟨"go", [(lookupDirection w).getD ""], ?_, by decide⟩
      simp only [parseLevel1, hc1, if_true]
    | false =>
      cases hfv : findVerb w with
      | none =>
        cases hc2 : (decide (2 ≤ level) && fullDirections.contains w) with
        | true =>
          refine Or.inr ⟨"go", [w], ?_, by decide⟩
          simp only [parseLevel1, hc1, hfv, hc2, Bool.false_eq_true,
            if_false, if_true]
        | false =>
          refine Or.inl ?_
          simp only [parseLevel1, hc1, hfv, hc2, Bool.false_eq_true,
            if_false]
      | some v =>
        cases hc3 : ((v == "inventory" || v == "help" || v == "quit")
            && rest.isEmpty) with
        | true =>
          refine Or.inr ⟨v, [], ?_, findVerb_mem hfv⟩
          simp only [parseLevel1, hc1, hfv, hc3, Bool.false_eq_true,
            if_false, if_true]
        | false =>
          cases hc4 : (v == "look" && rest.isEmpty) with
          | true =>
            refine Or.inr ⟨v, [], ?_, findVerb_mem hfv⟩
            simp only [parseLevel1, hc1, hfv, hc3, hc4, Bool.false_eq_true,
              if_false, if_true]
          | false =>
            refine Or.inr ⟨v,
              if 1 ≤ level then
                rest.filter (fun x =>
                  !(articles.contains x) && !(prepositions.contains x))
              else rest, ?_, findVerb_mem hfv⟩
            simp only [parseLevel1, hc1, hfv, hc3, hc4, Bool.false_eq_true,
              if_false]

lemma tokenize_empty : tokenize (toLowerStr "") = [] := by decide

lemma parseLevel0_two (w1 w2 orig : String) :
    parseLevel0 [w1, w2] orig =
      match findVerb w1 with
      | none => ⟨none, [], orig⟩
      | some v => ⟨some v, [w2], orig⟩ := rfl

/-! ### Parser claim theorems -/

/-- C1 counterexample: at level 0 the single token "take" — a canonical
verb that normally takes an argument — is accepted as `('take', [])` by
the final `return verb, [], original` fall-through, not rejected as the
claim states. -/
theorem lone_nonzero_arg_verb_accepted :
    parse 0 "take" = ⟨some "take", [], "take"⟩
    ∧ (parse 0 "take").verb ≠ none := by
  decide

/-- C1 amended: at level 0 `parse` accepts exactly these shapes — a single
token that is a direction abbreviation or full direction name, a single
token resolving to ANY canonical verb (returned with no arguments, not
only the four zero-argument verbs), or two tokens whose first resolves to
a canonical verb; every other tokenization (including more than two
tokens) fails, and failures carry the stripped original text. -/
theorem level0_accepted_shapes (input : String)
    (h : ¬ trimStr input = "") :
    ((parse 0 input).verb.isSome
      = acceptedShape0 (tokenize (toLowerStr (trimStr input))))
    ∧ ((parse 0 input).verb = none →
        parse 0 input = ⟨none, [], trimStr input⟩)
    ∧ (∀ w v, tokenize (toLowerStr (trimStr input)) = [w] →
        lookupDirection w = none → fullDirections.contains w = false →
        findVerb w = some v →
        parse 0 input = ⟨some v, [], trimStr input⟩) := by
  have hp : parse 0 input
      = parseLevel0 (tokenize (toLowerStr (trimStr input))) (trimStr input) :=
    by simp [parse, h]
  refine ⟨?_, ?_, ?_⟩
  · rw [hp]
    exact parseLevel0_isSome _ _
  · rw [hp]
    intro hv
    rcases parseLevel0_cases (tokenize (toLowerStr (trimStr input)))
      (trimStr input) with hc | ⟨v, args, hc, -⟩
    · exact hc
    · rw [hc] at hv
      simp at hv
  · intro w v hws hld hfd hfv
    rw [hp, hws]
    exact parseLevel0_singleVerb w v _ hld hfd hfv

/-- C1 witness: a three-token input fails at level 0 carrying the stripped
original text (via the amended characterization). -/
theorem level0_accepted_shapes_witness :
    parse 0 "blah blah blah" = ⟨none, [], "blah blah blah"⟩ :=
  (level0_accepted_shapes "blah blah blah" (by decide)).2.1 (by decide)

/-- C8: any two-token command accepted at level 0 is accepted with the
same canonical verb at every level ≥ 0 (the verb resolution is the same
reverse synonym lookup at all levels; only the argument filtering
differs). -/
theorem level0_commands_stable (input : String) (w1 w2 v : String)
    (ht : tokenize (toLowerStr (trimStr input)) = [w1, w2])
    (h0 : (parse 0 input).verb = some v) :
    ∀ level : Nat, (parse level input).verb = some v := by
  have hne : ¬ trimStr input = "" := by
    intro he
    rw [he, tokenize_empty] at ht
    simp at ht
  have hp0 : parse 0 input = parseLevel0 [w1, w2] (trimStr input) := by
    simp [parse, hne, ht]
  rw [hp0, parseLevel0_two] at h0
  have hfv : findVerb w1 = some v := by
    cases hfv : findVerb w1 with
    | none => rw [hfv] at h0; simp at h0
    | some v' => rw [hfv] at h0; simpa using h0
  intro level
  match level with
  | 0 =>
    rw [hp0, parseLevel0_two, hfv]
  | Nat.succ n =>
    have hp1 : parse (n + 1) input
        = parseLevel1 (n + 1) [w1, w2] (trimStr input) := by
      simp [parse, hne, ht]
    rw [hp1]
    simp [parseLevel1, hfv]

/-- C8 witness: "grab key" parses at level 0 to the canonical verb "take"
(via the synonym table), and still resolves to "take" at level 3. -/
theorem level0_commands_stable_witness :
    (parse 3 "grab key").verb = some "take" :=
  level0_commands_stable "grab key" "grab" "key" "take" (by decide)
    (by decide) 3

/-- C9: `parse` is total by construction (a total Lean function of the
level and the input string) and always returns a well-formed result: on
failure the failure tag (`verb = none`) with an empty argument list, and
on success a verb drawn from the canonical verb table. -/
theorem parser_totality :
    ∀ (level : Nat) (input : String),
      ((parse level input).verb = none ∧ (parse level input).args = [])
      ∨ ∃ v, (parse level input).verb = some v ∧ v ∈ canonicalVerbs := by
  intro level input
  by_cases h0 : trimStr input = ""
  · have hp : parse level input = ⟨none, [], input⟩ := by
      simp [parse, h0]
    rw [hp]
    exact Or.inl ⟨rfl, rfl⟩
  · by_cases hl : level = 0
    · have hp : parse level input
          = parseLevel0 (tokenize (toLowerStr (trimStr input)))
            (trimStr input) := by
        simp [parse, h0, hl]
      rw [hp]
      rcases parseLevel0_cases (tokenize (toLowerStr (trimStr input)))
        (trimStr input) with hc | ⟨v, args, hc, hv⟩
      · rw [hc]
        exact Or.inl ⟨rfl, rfl⟩
      · rw [hc]
        exact Or.inr ⟨v, rfl, hv⟩
    · have hp : parse level input
          = parseLevel1 level (tokenize (toLowerStr (trimStr input)))
            (trimStr input) := by
        simp [parse, h0, hl]
      rw [hp]
      rcases parseLevel1_cases level (tokenize (toLowerStr (trimStr input)))
        (trimStr input) with hc | ⟨v, args, hc, hv⟩
      · rw [hc]
        exact Or.inl ⟨rfl, rfl⟩
      · rw [hc]
        exact Or.inr ⟨v, rfl, hv⟩

end Skoolach
